import Mathlib

/-!
Verification of the roster / daily-log / scheduling core of `src/bot.py`
(class `SimpleBot`).  The Python code is shallowly embedded: JSON objects
become association lists with string keys, Python `set`s of user ids become
`Finset Nat`, file writes are counted, and outbound transport calls are
recorded as data.  Each definition mirrors one function (or one code path)
of the source; the doc comment of a definition names the source symbol it
embeds.
-/

namespace Bot

/-! ### Association lists, mirroring Python `dict` -/

/-- Lookup in a Python-dict model: first binding for the key wins
(insertion keeps at most one binding per key). -/
def alLookup {κ α : Type} [DecidableEq κ] (k : κ) : List (κ × α) → Option α
  | [] => none
  | kv :: rest => if kv.1 = k then some kv.2 else alLookup k rest

/-- Membership test of a Python dict (`k in d`). -/
def alContains {κ α : Type} [DecidableEq κ] (k : κ) (d : List (κ × α)) : Bool :=
  (alLookup k d).isSome

/-- Assignment `d[k] = v` of a Python dict: replaces the existing binding in
place, or appends a new binding (Python dicts preserve insertion order). -/
def alInsert {κ α : Type} [DecidableEq κ] (k : κ) (v : α) : List (κ × α) → List (κ × α)
  | [] => [(k, v)]
  | kv :: rest => if kv.1 = k then (k, v) :: rest else kv :: alInsert k v rest

/-- Deletion `del d[k]` of a Python dict (removing every binding for `k`;
well-formed dicts carry at most one). -/
def alErase {κ α : Type} [DecidableEq κ] (k : κ) (d : List (κ × α)) : List (κ × α) :=
  d.filter (fun kv => decide (kv.1 ≠ k))

/-! ### The daily-log data model (`bot_logs.json`) -/

/-- Per-user entry of one day's log
(`logs[today]['users'][str(user_id)]`). -/
structure UserEntry where
  username : String
  total_responses : Nat
  yes_count : Nat
  no_count : Nat
deriving DecidableEq

/-- One raw response event (`logs[today]['responses'][i]`). -/
structure ResponseEntry where
  timestamp : String
  user_id : Nat
  username : String
  response : String
deriving DecidableEq

/-- One day's aggregate log (`logs[today]`). -/
structure DailyLog where
  date : String
  total_responses : Nat
  yes_responses : Nat
  no_responses : Nat
  users : List (String × UserEntry)
  responses : List ResponseEntry
deriving DecidableEq

/-- The whole persisted log collection, keyed by ISO date string. -/
abbrev Logs := List (String × DailyLog)

/-- The day record created lazily on the first response of a day
(`SimpleBot.log_response`, lines 95-103). -/
def emptyDailyLog (today : String) : DailyLog :=
  { date := today
    total_responses := 0
    yes_responses := 0
    no_responses := 0
    users := []
    responses := [] }

/-- Python equality between an `int` and a `str` is always `False`
(no coercion happens for `==` across these types). -/
def pyIntEqStr (_ : Nat) (_ : String) : Bool := false

/-- The membership test `user_id not in logs[today]['users']` of
`SimpleBot.log_response` line 111: `user_id` is an `int` while every key of
the `users` dict is a `str` (entries are stored under `str(user_id)`), so
the `in` test compares an int against str keys and never succeeds. -/
def intKeyMem (i : Nat) (d : List (String × UserEntry)) : Bool :=
  d.any (fun kv => pyIntEqStr i kv.1)

/-- Embedding of `SimpleBot.log_response` (lines 82-136).  The file read
with its `except` fallback and the final file write are externalised: the
current log collection comes in as `logs` and the written collection is the
result.  `today` and `timestamp` are parameters standing for
`date.today().isoformat()` and `datetime.now().isoformat()`. -/
def log_response (logs : Logs) (user_id : Nat) (username : String)
    (response : String) (timestamp : String) (today : String) : Logs :=
  let logs := if alContains today logs then logs
              else alInsert today (emptyDailyLog today) logs
  let day := (alLookup today logs).getD (emptyDailyLog today)
  let day := { day with total_responses := day.total_responses + 1 }
  let day := if response = "yes"
             then { day with yes_responses := day.yes_responses + 1 }
             else { day with no_responses := day.no_responses + 1 }
  let fresh : UserEntry :=
    { username := username, total_responses := 0, yes_count := 0, no_count := 0 }
  let day := if intKeyMem user_id day.users then day
             else { day with users := alInsert (toString user_id) fresh day.users }
  let uentry := (alLookup (toString user_id) day.users).getD fresh
  let uentry := { uentry with total_responses := uentry.total_responses + 1 }
  let uentry := if response = "yes"
                then { uentry with yes_count := uentry.yes_count + 1 }
                else { uentry with no_count := uentry.no_count + 1 }
  let day := { day with users := alInsert (toString user_id) uentry day.users }
  let entry : ResponseEntry :=
    { timestamp := timestamp, user_id := user_id,
      username := username, response := response }
  let day := { day with responses := day.responses ++ [entry] }
  alInsert today day logs

/-- The day record the log collection holds for `today` (the freshly
created empty record when the date is absent). -/
def currentDay (logs : Logs) (today : String) : DailyLog :=
  (alLookup today logs).getD (emptyDailyLog today)

/-- Sum of the per-user `total_responses` counters of one day. -/
def userTotalsSum (day : DailyLog) : Nat :=
  (day.users.map (fun kv => kv.2.total_responses)).sum

/-! ### Text parsing helpers, mirroring Python `str` methods -/

/-- Python `text.isdigit()`: non-empty and every character a digit. -/
def pyIsDigit (s : String) : Bool :=
  !s.data.isEmpty && s.data.all Char.isDigit

/-- Python `int(text)` on an all-digit string. -/
def pyInt (s : String) : Nat :=
  s.data.foldl (fun n c => n * 10 + (c.toNat - 48)) 0

/-- Python `text.startswith(chr(64))`, the at-sign handle test. -/
def pyStartsWithAt (s : String) : Bool :=
  match s.data with
  | [] => false
  | c :: _ => c == '@'

/-! ### The roster / session state (`SimpleBot.__init__`) -/

/-- In-memory state of `SimpleBot` relevant to roles and sessions:
`user_states`, `admin_users`, `regular_users`, the per-admin
`context.user_data['pending_action']` slots (keyed by user id), and a
count of `save_users` calls (each call is one write of
`bot_users.json`). -/
structure BotState where
  user_states : List (Nat × String)
  admin_users : Finset Nat
  regular_users : Finset Nat
  pending : List (Nat × String)
  saves : Nat
deriving DecidableEq

/-- Fresh state of `SimpleBot.__init__` with no persisted users. -/
def initState : BotState :=
  { user_states := [], admin_users := ∅, regular_users := ∅,
    pending := [], saves := 0 }

/-- The hidden admin code (`self.admin_code`). -/
def admin_code : String := "Admin2024"

/-- Fixed refusal sent by `/admin`, `/stats`, `/logs` and `/users` to a
non-admin. -/
def notAvailableMsg : String := "This command is not available."

/-- Fixed refusal sent by `/exit` to a non-admin (line 361). -/
def notInAdminModeMsg : String := "You are not in admin mode."

/-- Reply of `/exit` and of the `admin_exit` button on success.  The two
apostrophes of the source text are written as character escapes. -/
def exitedAdminMsg : String :=
  "You\x27ve exited admin mode and are now a regular user.\nYou\x27ll receive daily questions again.\nUse /start to continue."

/-- Reply of `handle_message` when the admin code matches (lines 212-220,
apostrophe escaped). -/
def adminGrantedMsg : String :=
  "Admin access granted!\n\nAvailable Commands:\n/admin - Show admin menu with buttons\n/stats - View today\x27s statistics\n/logs - View available log dates\n/users - Manage users\n/exit - Exit admin mode\n\nYou won\x27t receive daily questions.\nYou\x27ll get notifications when users select \x27Yes\x27."

/-- Reply of `handle_message` to a handle reference (lines 179-183). -/
def usernameLookupMsg : String :=
  "Username lookup not implemented yet. Please use numeric user ID.\nYou can find user IDs in the /users list."

/-- Reply of `handle_message` to a non-numeric target (line 185). -/
def invalidIdMsg : String :=
  "Invalid user ID format. Please send a numeric user ID."

/-- Embedding of `SimpleBot.start_command` (lines 138-161).  Replies are
omitted (a welcome text either way); only the state effect matters to the
claims: an admin keeps its role, anyone else is put in `user_states` as
active and added to the regular set, and the roster is saved. -/
def start_command (s : BotState) (uid : Nat) : BotState :=
  if uid ∈ s.admin_users then s
  else { s with user_states := alInsert uid "active" s.user_states,
                regular_users := insert uid s.regular_users,
                saves := s.saves + 1 }

/-- Embedding of `SimpleBot.handle_message` (lines 163-225).  Returns the
new state and the replies sent.  The pending-action branch fires only for a
current admin holding a `pending_action`, deletes the slot first, then
parses the target; the fallthrough branch checks the admin code. -/
def handle_message (s : BotState) (uid : Nat) (text : String) :
    BotState × List String :=
  match (if uid ∈ s.admin_users then alLookup uid s.pending else none) with
  | some action =>
      let s := { s with pending := alErase uid s.pending }
      if pyIsDigit text then
        let target := pyInt text
        if action = "user_make_admin" then
          ({ s with regular_users := s.regular_users.erase target,
                    admin_users := insert target s.admin_users,
                    saves := s.saves + 1 },
           ["✅ User " ++ toString target ++ " is now an admin."])
        else if action = "user_remove_admin" then
          if target ∈ s.admin_users then
            ({ s with admin_users := s.admin_users.erase target,
                      regular_users := insert target s.regular_users,
                      saves := s.saves + 1 },
             ["✅ User " ++ toString target ++ " removed from admins."])
          else (s, ["❌ User " ++ toString target ++ " is not an admin."])
        else (s, [])
      else if pyStartsWithAt text then (s, [usernameLookupMsg])
      else (s, [invalidIdMsg])
  | none =>
      if text = admin_code then
        ({ s with admin_users := insert uid s.admin_users,
                  regular_users := s.regular_users.erase uid,
                  saves := s.saves + 1 },
         [adminGrantedMsg])
      else (s, [])

/-- Embedding of `SimpleBot.exit_command` (lines 356-373). -/
def exit_command (s : BotState) (uid : Nat) : BotState × List String :=
  if uid ∈ s.admin_users then
    ({ s with admin_users := s.admin_users.erase uid,
              regular_users := insert uid s.regular_users,
              saves := s.saves + 1 },
     [exitedAdminMsg])
  else (s, [notInAdminModeMsg])

/-- Embedding of the `user_states` activation at the top of
`SimpleBot.handle_callback` (lines 539-540): a user pressing any button is
marked active when not yet tracked. -/
def touch_active (s : BotState) (uid : Nat) : BotState :=
  if (alLookup uid s.user_states).isSome then s
  else { s with user_states := alInsert uid "active" s.user_states }

/-- Embedding of the state effect of `SimpleBot.handle_callback`
(lines 531-612): after the `user_states` activation, `admin_exit` demotes
the pressing admin; `user_make_admin` / `user_remove_admin` store the
pending action; `admin_users_return` discards it.  The read-only menu
branches and the `yes` / `no` branches (which touch only the log and job
state, modelled separately) leave this state unchanged. -/
def handle_callback (s : BotState) (uid : Nat) (data : String) : BotState :=
  let s := touch_active s uid
  if data = "admin_back" then s
  else if data = "admin_stats" then s
  else if data = "admin_logs" then s
  else if data = "admin_users" then s
  else if data = "admin_exit" then
    if uid ∈ s.admin_users then
      { s with admin_users := s.admin_users.erase uid,
               regular_users := insert uid s.regular_users,
               saves := s.saves + 1 }
    else s
  else if data = "user_refresh" then s
  else if data = "user_make_admin" ∨ data = "user_remove_admin" then
    { s with pending := alInsert uid data s.pending }
  else if data = "admin_users_return" then
    { s with pending := alErase uid s.pending }
  else s

/-! ### Statistics and log views -/

/-- Percentage block of the statistics text.  The source computes the two
percentages with floating-point division and one-decimal formatting
(lines 288-293), which has no exact embedding over `Nat`; the numeric
rendering is abstracted while the guard (`total_responses > 0`) and the
block's presence are kept. -/
def pctBlock (yes no total : Nat) : String :=
  "Percentages:\n  Yes: " ++ toString yes ++ "/" ++ toString total ++
  "\n  No: " ++ toString no ++ "/" ++ toString total ++ "\n\n"

/-- Per-user lines of the statistics text (lines 295-298). -/
def userLines (users : List (String × UserEntry)) : String :=
  users.foldl
    (fun acc kv =>
      acc ++ "  • " ++ kv.2.username ++ ": " ++ toString kv.2.yes_count ++
      "Yes " ++ toString kv.2.no_count ++ "No\n")
    ""

/-- Body of the statistics reply built by `stats_command`
(lines 283-298). -/
def statsText (day : DailyLog) : String :=
  "Daily Statistics - " ++ day.date ++ "\n\nTotal Responses: " ++
  toString day.total_responses ++ "\nYes Responses: " ++
  toString day.yes_responses ++ "\nNo Responses: " ++
  toString day.no_responses ++ "\n\n" ++
  (if day.total_responses > 0 then
     pctBlock day.yes_responses day.no_responses day.total_responses
   else "") ++
  (if day.users.isEmpty then ""
   else "Active Users: " ++ toString day.users.length ++ "\n" ++
        userLines day.users)

/-- Embedding of `SimpleBot.stats_command` (lines 264-303).  The file read
and JSON parse are externalised as an `Except` input; the `except` clause
of the source catches a read/parse failure and replies with the error text
itself. -/
def stats_command (s : BotState) (uid : Nat)
    (readLogs : Except String Logs) (today : String) :
    BotState × List String :=
  if uid ∈ s.admin_users then
    match readLogs with
    | Except.error e => (s, ["Error getting stats: " ++ e])
    | Except.ok logs =>
        if alContains today logs then
          (s, [statsText ((alLookup today logs).getD (emptyDailyLog today))])
        else (s, ["No data available for today."])
  else (s, [notAvailableMsg])

/-- Embedding of `SimpleBot.show_stats_inline` (lines 227-262): same logic
as `stats_command` without the admin gate (it is reached from the admin
menu callback), replying inline. -/
def show_stats_inline (readLogs : Except String Logs) (today : String) :
    List String :=
  match readLogs with
  | Except.error e => ["Error getting stats: " ++ e]
  | Except.ok logs =>
      if alContains today logs then
        ["📊 " ++ statsText ((alLookup today logs).getD (emptyDailyLog today))]
      else ["No data available for today."]

/-- The date listing expression shared by `logs_command` (line 346) and
`show_logs_inline` (line 315): `sorted(logs.keys(), reverse=True)[:10]`,
the keys of the log collection sorted descending and truncated to the
first ten. -/
def listDates (logs : Logs) : List String :=
  (List.insertionSort (fun a b : String => a ≥ b) (logs.map Prod.fst)).take 10

/-- Per-date summary lines of the `/logs` reply (lines 346-349). -/
def datesText (logs : Logs) : String :=
  (listDates logs).foldl
    (fun acc d =>
      let st := (alLookup d logs).getD (emptyDailyLog d)
      acc ++ d ++ "\n  Total: " ++ toString st.total_responses ++
      " | Yes: " ++ toString st.yes_responses ++ " | No: " ++
      toString st.no_responses ++ "\n\n")
    "Available Log Dates:\n\n"

/-- Embedding of `SimpleBot.logs_command` (lines 329-354). -/
def logs_command (s : BotState) (uid : Nat)
    (readLogs : Except String Logs) : BotState × List String :=
  if uid ∈ s.admin_users then
    match readLogs with
    | Except.error e => (s, ["Error getting logs: " ++ e])
    | Except.ok logs =>
        if logs.isEmpty then (s, ["No logs available."])
        else (s, [datesText logs])
  else (s, [notAvailableMsg])

/-- Embedding of `SimpleBot.show_logs_inline` (lines 305-327): the inline
variant without the admin gate. -/
def show_logs_inline (readLogs : Except String Logs) : List String :=
  match readLogs with
  | Except.error e => ["Error getting logs: " ++ e]
  | Except.ok logs =>
      if logs.isEmpty then ["No logs available."]
      else ["📁 " ++ datesText logs]

/-- Menu text of `SimpleBot.build_admin_menu` (lines 375-399, apostrophe
escaped). -/
def adminMenuText : String :=
  "ADMIN PANEL\n" ++ String.mk (List.replicate 30 '=') ++
  "\n\nSelect an option:\n\n/stats - View today\x27s statistics\n/logs - View available log dates\n/users - Manage users\n/exit - Exit admin mode\n"

/-- Embedding of `SimpleBot.admin_command` (lines 487-496). -/
def admin_command (s : BotState) (uid : Nat) : BotState × List String :=
  if uid ∈ s.admin_users then (s, [adminMenuText])
  else (s, [notAvailableMsg])

/-- Directory entry accumulated by `build_users_list` over all days
(lines 408-422). -/
structure DirEntry where
  username : String
  total_yes : Nat
  total_no : Nat
  first_seen : String
  last_seen : String
deriving DecidableEq

/-- The fold of `SimpleBot.build_users_list` over every persisted day
(lines 408-422), deriving the user directory from the logs. -/
def buildAllUsersData (logs : Logs) : List (String × DirEntry) :=
  logs.foldl
    (fun acc kv =>
      kv.2.users.foldl
        (fun acc ukv =>
          let acc :=
            if (alLookup ukv.1 acc).isSome then acc
            else alInsert ukv.1
              ({ username := ukv.2.username, total_yes := 0, total_no := 0,
                 first_seen := kv.1, last_seen := kv.1 } : DirEntry) acc
          let e := (alLookup ukv.1 acc).getD
            ({ username := ukv.2.username, total_yes := 0, total_no := 0,
               first_seen := kv.1, last_seen := kv.1 } : DirEntry)
          alInsert ukv.1
            { e with total_yes := e.total_yes + ukv.2.yes_count,
                     total_no := e.total_no + ukv.2.no_count,
                     last_seen := kv.1 } acc)
        acc)
    []

/-- Text of `SimpleBot.build_users_list` (lines 401-467).  Python iterates
the roster `set`s in unspecified order; the embedding fixes ascending id
order.  The regular list is truncated to twenty entries as in the
source. -/
def buildUsersText (s : BotState) (logs : Logs) : String :=
  let dir := buildAllUsersData logs
  let adminLines :=
    (s.admin_users.sort (· ≤ ·)).foldl
      (fun acc aid =>
        let nm := match alLookup (toString aid) dir with
                  | some e => e.username
                  | none => "ID: " ++ toString aid
        acc ++ "  - " ++ nm ++ "\n")
      ""
  let regLines :=
    ((s.regular_users.sort (· ≤ ·)).take 20).foldl
      (fun acc rid =>
        let nm := match alLookup (toString rid) dir with
                  | some e => e.username
                  | none => "ID: " ++ toString rid
        let tot := match alLookup (toString rid) dir with
                   | some e => e.total_yes + e.total_no
                   | none => 0
        acc ++ "  - " ++ nm ++ " (" ++ toString tot ++ " responses)\n")
      ""
  let more := if s.regular_users.card > 20 then
                "  ... and " ++ toString (s.regular_users.card - 20) ++ " more\n"
              else ""
  "USER MANAGEMENT\n" ++ String.mk (List.replicate 30 '=') ++ "\n\n" ++
  "ADMINS (" ++ toString s.admin_users.card ++ "):\n" ++ adminLines ++
  "\nREGULAR USERS (" ++ toString s.regular_users.card ++ "):\n" ++
  regLines ++ more ++
  "\nSTATISTICS:\n  Total users: " ++
  toString (s.admin_users.card + s.regular_users.card) ++
  "\n  Admins: " ++ toString s.admin_users.card ++
  "\n  Regular users: " ++ toString s.regular_users.card ++
  "\n\nTIP: Use buttons below to manage users"

/-- Embedding of `SimpleBot.users_command` (lines 498-506). -/
def users_command (s : BotState) (uid : Nat) (logs : Logs) :
    BotState × List String :=
  if uid ∈ s.admin_users then (s, [buildUsersText s logs])
  else (s, [notAvailableMsg])

/-! ### The yes / no workflow and the job queue -/

/-- One scheduled one-shot job of the external `job_queue`. -/
structure Job where
  name : String
  chat_id : Nat
  delay : Nat
deriving DecidableEq

/-- Modelled from the spec and the python-telegram-bot contract:
`job_queue.run_once` schedules one new one-shot job.  Job names are not
unique keys; an already-pending job with the same name is neither
cancelled nor replaced (the spec notes the source does not guard against
duplicate scheduling). -/
def run_once (q : List Job) (j : Job) : List Job := q ++ [j]

/-- The admin notification text of `handle_yes_choice` (line 625,
apostrophes escaped). -/
def admin_message (user_info first_name last_name : String) (uid : Nat) :
    String :=
  "Notification from bot:\n\nUser " ++ user_info ++
  " has selected \x27Yes\x27!\n\nUser details:\n- Name: " ++ first_name ++
  " " ++ last_name ++ "\n- Username: " ++ user_info ++ "\n- User ID: " ++
  toString uid

/-- Result of `handle_yes_choice`: the written logs, the set of admins an
outbound notification is sent to, and the locally logged notification
texts. -/
structure YesResult where
  logs : Logs
  sent_to : Finset Nat
  local_log : List String
deriving DecidableEq

/-- Embedding of `SimpleBot.handle_yes_choice` (lines 614-645): records the
response, then either fans the notification out to every current admin
(per-admin send failures are external) or, when the admin set is empty,
only logs the notification locally. -/
def handle_yes_choice (logs : Logs) (admins : Finset Nat) (uid : Nat)
    (user_info first_name last_name timestamp today : String) : YesResult :=
  let logs := log_response logs uid user_info "yes" timestamp today
  let msg := admin_message user_info first_name last_name uid
  if admins.Nonempty then
    { logs := logs, sent_to := admins, local_log := [] }
  else
    { logs := logs, sent_to := ∅, local_log := [msg] }

/-- Result of `handle_no_choice`: the written logs and the job queue. -/
structure NoResult where
  logs : Logs
  jobs : List Job
deriving DecidableEq

/-- Embedding of `SimpleBot.handle_no_choice` (lines 647-665): records the
response, then schedules the 15-minute (900 second) re-ask via `run_once`
under the name `delayed_question_<uid>`. -/
def handle_no_choice (logs : Logs) (jobs : List Job) (uid : Nat)
    (user_info timestamp today : String) : NoResult :=
  let logs := log_response logs uid user_info "no" timestamp today
  let jobs := run_once jobs
    { name := "delayed_question_" ++ toString uid, chat_id := uid,
      delay := 900 }
  { logs := logs, jobs := jobs }

/-! ### Concrete demonstration states and logs -/

/-- State with admin 7 holding a `make_admin` pending action. -/
def demoPendingState : BotState :=
  { user_states := [], admin_users := {7}, regular_users := ∅,
    pending := [(7, "user_make_admin")], saves := 0 }

/-- State with admin 7 holding a `remove_admin` pending action and 3 as
the only regular user. -/
def demoRemoveState : BotState :=
  { user_states := [], admin_users := {7}, regular_users := {3},
    pending := [(7, "user_remove_admin")], saves := 0 }

/-- State with admin 7 and nothing else. -/
def demoAdminState : BotState :=
  { user_states := [], admin_users := {7}, regular_users := ∅,
    pending := [], saves := 0 }

/-- Logs after two "yes" responses from user 111 on the same date. -/
def c2Logs : Logs :=
  log_response (log_response [] 111 "u" "yes" "t1" "2024-01-01") 111 "u"
    "yes" "t2" "2024-01-01"

/-- A log collection with two (empty) days. -/
def demoLogs : Logs :=
  [("2024-01-01", emptyDailyLog "2024-01-01"),
   ("2024-01-02", emptyDailyLog "2024-01-02")]

/-- A log collection with a single day. -/
def oneLog : Logs := [("2024-03-05", emptyDailyLog "2024-03-05")]

/-- Result of user 111 answering "no" twice in a row, the first reminder
still pending. -/
def twoNoResult : NoResult :=
  let r1 := handle_no_choice [] [] 111 "u" "t1" "2024-01-01"
  handle_no_choice r1.logs r1.jobs 111 "u" "t2" "2024-01-01"

/-! ### The step relation over roster states -/

/-- One inbound event handled by the bot, as a relation on the roster /
session state.  The read-only commands are included for completeness; the
`yes` / `no` button branches act on the log and job state only and are
covered by the `callback` case leaving the roster unchanged. -/
inductive Step : BotState → BotState → Prop
  | start : ∀ s uid, Step s (start_command s uid)
  | message : ∀ s uid text, Step s (handle_message s uid text).1
  | exitCmd : ∀ s uid, Step s (exit_command s uid).1
  | callback : ∀ s uid data, Step s (handle_callback s uid data)
  | adminCmd : ∀ s uid, Step s (admin_command s uid).1
  | statsCmd : ∀ s uid readLogs today,
      Step s (stats_command s uid readLogs today).1
  | logsCmd : ∀ s uid readLogs, Step s (logs_command s uid readLogs).1
  | usersCmd : ∀ s uid logs, Step s (users_command s uid logs).1

/-- States reachable from the fresh bot state through any sequence of
handled events. -/
def Reachable : BotState → BotState → Prop :=
  Relation.ReflTransGen Step

/-- Disjointness of the two roster sets. -/
def RosterDisjoint (s : BotState) : Prop :=
  ∀ x, x ∈ s.admin_users → x ∉ s.regular_users

/-! ### Lemmas about the dict model -/

theorem alLookup_alInsert_self {κ α : Type} [DecidableEq κ] (k : κ) (v : α)
    (d : List (κ × α)) : alLookup k (alInsert k v d) = some v := by
  induction d with
  | nil => simp [alInsert, alLookup]
  | cons kv rest ih =>
      by_cases h : kv.1 = k <;> simp [alInsert, alLookup, h, ih]

theorem alLookup_alInsert_ne {κ α : Type} [DecidableEq κ] {k k' : κ} (v : α)
    (d : List (κ × α)) (h : k' ≠ k) :
    alLookup k' (alInsert k v d) = alLookup k' d := by
  induction d with
  | nil => simp [alInsert, alLookup, Ne.symm h]
  | cons kv rest ih =>
      by_cases hk : kv.1 = k
      · simp [alInsert, alLookup, hk, Ne.symm h]
      · simp [alInsert, alLookup, hk, ih]

theorem alLookup_alErase_self {κ α : Type} [DecidableEq κ] (k : κ)
    (d : List (κ × α)) : alLookup k (alErase k d) = none := by
  induction d with
  | nil => simp [alErase, alLookup]
  | cons kv rest ih =>
      by_cases h : kv.1 = k <;> simp [alErase, alLookup, h] at ih ⊢ <;>
        simpa [alErase] using ih

theorem intKeyMem_eq_false (i : Nat) (d : List (String × UserEntry)) :
    intKeyMem i d = false := by
  simp [intKeyMem, pyIntEqStr]

/-! ### Preservation of roster disjointness -/

theorem disjoint_promote {A R : Finset Nat} (h : ∀ x, x ∈ A → x ∉ R)
    (t : Nat) : ∀ x, x ∈ insert t A → x ∉ R.erase t := by
  intro x hx
  rcases Finset.mem_insert.mp hx with rfl | hx
  · simp [Finset.mem_erase]
  · simp [Finset.mem_erase, h x hx]

theorem disjoint_demote {A R : Finset Nat} (h : ∀ x, x ∈ A → x ∉ R)
    (t : Nat) : ∀ x, x ∈ A.erase t → x ∉ insert t R := by
  intro x hx
  rcases Finset.mem_erase.mp hx with ⟨hne, hA⟩
  simp [Finset.mem_insert, hne, h x hA]

theorem disjoint_register {A R : Finset Nat} (h : ∀ x, x ∈ A → x ∉ R)
    {u : Nat} (hu : u ∉ A) : ∀ x, x ∈ A → x ∉ insert u R := by
  intro x hx
  have hne : x ≠ u := fun he => hu (he ▸ hx)
  simp [Finset.mem_insert, hne, h x hx]

theorem start_command_disjoint (s : BotState) (uid : Nat)
    (h : RosterDisjoint s) : RosterDisjoint (start_command s uid) := by
  unfold start_command
  split
  · exact h
  · next hn => exact fun x hx => disjoint_register h hn x hx

theorem handle_message_disjoint (s : BotState) (uid : Nat) (text : String)
    (h : RosterDisjoint s) : RosterDisjoint (handle_message s uid text).1 := by
  simp only [handle_message]
  split
  · split
    · split
      · exact fun x hx => disjoint_promote h (pyInt text) x hx
      · split
        · split
          · exact fun x hx => disjoint_demote h (pyInt text) x hx
          · exact h
        · exact h
    · split
      · exact h
      · exact h
  · split
    · exact fun x hx => disjoint_promote h uid x hx
    · exact h

theorem exit_command_disjoint (s : BotState) (uid : Nat)
    (h : RosterDisjoint s) : RosterDisjoint (exit_command s uid).1 := by
  unfold exit_command
  split
  · exact fun x hx => disjoint_demote h uid x hx
  · exact h

theorem touch_active_admin (s : BotState) (uid : Nat) :
    (touch_active s uid).admin_users = s.admin_users := by
  unfold touch_active; split <;> rfl

theorem touch_active_regular (s : BotState) (uid : Nat) :
    (touch_active s uid).regular_users = s.regular_users := by
  unfold touch_active; split <;> rfl

theorem touch_active_disjoint (s : BotState) (uid : Nat)
    (h : RosterDisjoint s) : RosterDisjoint (touch_active s uid) := by
  intro x
  rw [touch_active_admin, touch_active_regular]
  exact h x

theorem handle_callback_disjoint (s : BotState) (uid : Nat) (data : String)
    (h : RosterDisjoint s) : RosterDisjoint (handle_callback s uid data) := by
  have h' := touch_active_disjoint s uid h
  simp only [handle_callback]
  split
  · exact h'
  · split
    · exact h'
    · split
      · exact h'
      · split
        · exact h'
        · split
          · split
            · exact fun x hx => disjoint_demote h' uid x hx
            · exact h'
          · split
            · exact h'
            · split
              · exact h'
              · split
                · exact h'
                · exact h'

theorem admin_command_fst (s : BotState) (uid : Nat) :
    (admin_command s uid).1 = s := by
  unfold admin_command; split <;> rfl

theorem stats_command_fst (s : BotState) (uid : Nat)
    (readLogs : Except String Logs) (today : String) :
    (stats_command s uid readLogs today).1 = s := by
  unfold stats_command
  split
  · cases readLogs with
    | error e => rfl
    | ok logs => dsimp only; split <;> rfl
  · rfl

theorem logs_command_fst (s : BotState) (uid : Nat)
    (readLogs : Except String Logs) :
    (logs_command s uid readLogs).1 = s := by
  unfold logs_command
  split
  · cases readLogs with
    | error e => rfl
    | ok logs => dsimp only; split <;> rfl
  · rfl

theorem users_command_fst (s : BotState) (uid : Nat) (logs : Logs) :
    (users_command s uid logs).1 = s := by
  unfold users_command; split <;> rfl

theorem step_disjoint {s t : BotState} (st : Step s t)
    (h : RosterDisjoint s) : RosterDisjoint t := by
  cases st with
  | start uid => exact start_command_disjoint s uid h
  | message uid text => exact handle_message_disjoint s uid text h
  | exitCmd uid => exact exit_command_disjoint s uid h
  | callback uid data => exact handle_callback_disjoint s uid data h
  | adminCmd uid => rw [admin_command_fst]; exact h
  | statsCmd uid readLogs today => rw [stats_command_fst]; exact h
  | logsCmd uid readLogs => rw [logs_command_fst]; exact h
  | usersCmd uid logs => rw [users_command_fst]; exact h

/-- C1: in every state reachable from the fresh bot state through any
sequence of handled events — registering on `/start`, promotion via the
admin code or a `make_admin` pending action, demotion via a `remove_admin`
pending action, exit via `/exit` or the `admin_exit` button — the admin
set and the regular-user set stay disjoint: no user id belongs to both. -/
theorem claim1_roster_disjoint (s : BotState) (h : Reachable initState s) :
    ∀ x, x ∈ s.admin_users → x ∉ s.regular_users := by
  induction h with
  | refl => intro x hx; simp [initState] at hx
  | tail _ st ih => exact step_disjoint st ih

theorem claim1_witness :
    (7 : Nat) ∉ (handle_message initState 7 "Admin2024").1.regular_users :=
  claim1_roster_disjoint (handle_message initState 7 "Admin2024").1
    (Relation.ReflTransGen.single (Step.message initState 7 "Admin2024")) 7
    (by decide)

/-- C3: an admin holding a pending action has the slot deleted
unconditionally by the next text message, whatever the text is — a valid
numeric id, a handle reference or garbage — because `handle_message`
deletes `pending_action` before any target validation. -/
theorem claim3_pending_cleared (s : BotState) (uid : Nat) (a text : String)
    (hA : uid ∈ s.admin_users) (hP : alLookup uid s.pending = some a) :
    alLookup uid (handle_message s uid text).1.pending = none := by
  simp only [handle_message, hA, if_true, hP]
  split
  · split
    · simp [alLookup_alErase_self]
    · split
      · split <;> simp [alLookup_alErase_self]
      · simp [alLookup_alErase_self]
  · split
    · simp [alLookup_alErase_self]
    · simp [alLookup_alErase_self]

theorem claim3_witness :
    alLookup 7 (handle_message demoPendingState 7 "garbage").1.pending = none :=
  claim3_pending_cleared demoPendingState 7 "user_make_admin" "garbage"
    (by decide) (by decide)

/-- C5: an admin with pending action `user_remove_admin` sending a numeric
target id that is not currently an admin leaves both roster sets unchanged,
performs no roster save, and is answered with the "is not an admin"
failure. -/
theorem claim5_remove_admin_noop (s : BotState) (uid target : Nat)
    (text : String) (hA : uid ∈ s.admin_users)
    (hP : alLookup uid s.pending = some "user_remove_admin")
    (hD : pyIsDigit text = true) (hV : pyInt text = target)
    (hT : target ∉ s.admin_users) :
    (handle_message s uid text).1.admin_users = s.admin_users ∧
    (handle_message s uid text).1.regular_users = s.regular_users ∧
    (handle_message s uid text).1.saves = s.saves ∧
    (handle_message s uid text).2 =
      ["❌ User " ++ toString target ++ " is not an admin."] := by
  simp only [handle_message, hA, if_true, hP, hD, hV]
  simp [hT]

/-! ### C2: the per-user counters of `log_response` -/

/-- C2 fails on the code (evaluation at the failing input): after two
"yes" responses from user 111 on 2024-01-01, the day's `total_responses`
is 2 while the per-user totals sum to 1, because the membership test of
`log_response` compares the `int` user id against `str` keys and therefore
recreates the per-user entry from zero on every call; a third response of
"no" then drops the user's `yes_count` from 1 back to 0, so the per-user
counters are not monotone either. -/
theorem claim2_per_user_totals_bug :
    (currentDay c2Logs "2024-01-01").total_responses = 2 ∧
    userTotalsSum (currentDay c2Logs "2024-01-01") = 1 ∧
    alLookup "111" (currentDay c2Logs "2024-01-01").users =
      some { username := "u", total_responses := 1, yes_count := 1,
             no_count := 0 } ∧
    alLookup "111"
        (currentDay (log_response c2Logs 111 "u" "no" "t3" "2024-01-01")
          "2024-01-01").users =
      some { username := "u", total_responses := 1, yes_count := 0,
             no_count := 1 } := by
  decide

/-! ### C10: the frame of `log_response` -/

theorem log_response_other_dates (logs : Logs) (uid : Nat)
    (un resp ts today d : String) (hd : d ≠ today) :
    alLookup d (log_response logs uid un resp ts today) = alLookup d logs := by
  cases ho : alLookup today logs <;>
    simp [log_response, alContains, ho, alLookup_alInsert_ne, hd]

theorem log_response_other_users (logs : Logs) (uid : Nat)
    (un resp ts today k : String) (hk : k ≠ toString uid) :
    alLookup k (currentDay (log_response logs uid un resp ts today) today).users
      = alLookup k (currentDay logs today).users := by
  cases ho : alLookup today logs <;> by_cases hy : resp = "yes" <;>
    simp [log_response, currentDay, alContains, ho, hy, intKeyMem_eq_false,
      alLookup_alInsert_self, alLookup_alInsert_ne, hk]

theorem log_response_responses (logs : Logs) (uid : Nat)
    (un resp ts today : String) :
    (currentDay (log_response logs uid un resp ts today) today).responses
      = (currentDay logs today).responses ++
        [{ timestamp := ts, user_id := uid, username := un,
           response := resp }] := by
  cases ho : alLookup today logs <;> by_cases hy : resp = "yes" <;>
    simp [log_response, currentDay, alContains, ho, hy, intKeyMem_eq_false,
      alLookup_alInsert_self]

/-- C10: `log_response` for user `uid` on day `today` leaves every other
date's log unchanged and, within today's log, every other user's entry
unchanged, and only appends to the raw responses list. -/
theorem claim10_log_frame (logs : Logs) (uid : Nat)
    (un resp ts today : String) :
    (∀ d, d ≠ today →
        alLookup d (log_response logs uid un resp ts today) = alLookup d logs) ∧
    (∀ k, k ≠ toString uid →
        alLookup k
            (currentDay (log_response logs uid un resp ts today) today).users
          = alLookup k (currentDay logs today).users) ∧
    (currentDay (log_response logs uid un resp ts today) today).responses
      = (currentDay logs today).responses ++
        [{ timestamp := ts, user_id := uid, username := un,
           response := resp }] :=
  ⟨fun d hd => log_response_other_dates logs uid un resp ts today d hd,
   fun k hk => log_response_other_users logs uid un resp ts today k hk,
   log_response_responses logs uid un resp ts today⟩

theorem claim10_witness :
    alLookup "2024-01-01" (log_response demoLogs 5 "u" "yes" "t" "2024-01-02")
      = alLookup "2024-01-01" demoLogs :=
  (claim10_log_frame demoLogs 5 "u" "yes" "t" "2024-01-02").1 "2024-01-01"
    (by decide)

/-! ### C4: the command gate for non-admins -/

/-- C4 counterexample: for the non-admin user 5 the `/exit` command does
not reply with the shared "not available" message of the other four
commands but with its own "You are not in admin mode." text, so the five
replies are not all the same fixed message. -/
theorem claim4_counterexample :
    (5 : Nat) ∉ initState.admin_users ∧
    (admin_command initState 5).2 = [notAvailableMsg] ∧
    (exit_command initState 5).2 = [notInAdminModeMsg] ∧
    (exit_command initState 5).2 ≠ (admin_command initState 5).2 := by
  decide

/-- C4 amended: for every user not in the admin set, `/admin`, `/stats`,
`/logs` and `/users` reply with the same fixed "not available" message,
while `/exit` replies with the fixed "You are not in admin mode." message;
none of the five mutates any state. -/
theorem claim4_commands_gated (s : BotState) (uid : Nat)
    (readLogs : Except String Logs) (today : String) (logs : Logs)
    (h : uid ∉ s.admin_users) :
    admin_command s uid = (s, [notAvailableMsg]) ∧
    stats_command s uid readLogs today = (s, [notAvailableMsg]) ∧
    logs_command s uid readLogs = (s, [notAvailableMsg]) ∧
    users_command s uid logs = (s, [notAvailableMsg]) ∧
    exit_command s uid = (s, [notInAdminModeMsg]) := by
  simp [admin_command, stats_command, logs_command, users_command,
    exit_command, h]

theorem claim4_witness :
    admin_command initState 5 = (initState, [notAvailableMsg]) ∧
    stats_command initState 5 (Except.ok []) "2024-01-01" =
      (initState, [notAvailableMsg]) ∧
    logs_command initState 5 (Except.ok []) = (initState, [notAvailableMsg]) ∧
    users_command initState 5 [] = (initState, [notAvailableMsg]) ∧
    exit_command initState 5 = (initState, [notInAdminModeMsg]) :=
  claim4_commands_gated initState 5 (Except.ok []) "2024-01-01" []
    (by decide)

/-! ### C6: reminder scheduling on a "no" response -/

/-- C6 counterexample: user 111 answers "no" twice while the first
reminder is still pending (no job has fired between the two calls); the
queue then holds two scheduled re-asks named `delayed_question_111`, so
the second "no" stacked a reminder instead of superseding the first. -/
theorem claim6_counterexample :
    twoNoResult.jobs.map (fun j => j.name) =
      ["delayed_question_111", "delayed_question_111"] := by
  decide

/-- C6 amended: every "no" response appends one new 15-minute reminder
job for the user to the queue; a previously pending reminder for the same
user is neither cancelled nor replaced, so several reminders for one user
can be outstanding simultaneously. -/
theorem claim6_reminder_appended (logs : Logs) (jobs : List Job) (uid : Nat)
    (user_info ts today : String) :
    (handle_no_choice logs jobs uid user_info ts today).jobs =
      jobs ++ [{ name := "delayed_question_" ++ toString uid, chat_id := uid,
                 delay := 900 }] :=
  rfl

/-! ### C7: storage failure during a statistics query -/

/-- C7 counterexample: for the admin 7, a parse failure of the log file
makes `/stats` (and the inline stats view) reply with the underlying error
text — "Error getting stats: Expecting value" — which is not the "no data"
reply; the failure is disclosed rather than substituted by an
empty/default structure. -/
theorem claim7_counterexample :
    (stats_command demoAdminState 7 (Except.error "Expecting value")
        "2024-01-01").2 = ["Error getting stats: Expecting value"] ∧
    show_stats_inline (Except.error "Expecting value") "2024-01-01" =
      ["Error getting stats: Expecting value"] ∧
    ["Error getting stats: Expecting value"] ≠
      (["No data available for today."] : List String) := by
  decide

/-- C7 amended: a storage read or parse failure during `/stats`, `/logs`
or the inline stats/logs views is caught — the handler returns normally
and mutates no state — but is answered with a reply embedding the error
text ("Error getting stats/logs: ..."), not with the "no data" reply built
from an empty structure. -/
theorem claim7_error_reported (s : BotState) (uid : Nat) (e today : String)
    (hA : uid ∈ s.admin_users) :
    stats_command s uid (Except.error e) today =
      (s, ["Error getting stats: " ++ e]) ∧
    show_stats_inline (Except.error e) today =
      ["Error getting stats: " ++ e] ∧
    logs_command s uid (Except.error e) = (s, ["Error getting logs: " ++ e]) ∧
    show_logs_inline (Except.error e) = ["Error getting logs: " ++ e] := by
  simp [stats_command, show_stats_inline, logs_command, show_logs_inline, hA]

theorem claim7_witness :
    stats_command demoAdminState 7 (Except.error "boom") "2024-01-01" =
      (demoAdminState, ["Error getting stats: boom"]) ∧
    show_stats_inline (Except.error "boom") "2024-01-01" =
      ["Error getting stats: boom"] ∧
    logs_command demoAdminState 7 (Except.error "boom") =
      (demoAdminState, ["Error getting logs: boom"]) ∧
    show_logs_inline (Except.error "boom") = ["Error getting logs: boom"] :=
  claim7_error_reported demoAdminState 7 "boom" "2024-01-01" (by decide)

/-! ### C8: yes-notification fan-out with no admins -/

/-- C8: when the admin set is empty and a user selects "yes", no outbound
admin message is sent to anyone and the notification text is logged
locally instead. -/
theorem claim8_no_admins_local_log (logs : Logs) (uid : Nat)
    (user_info first_name last_name ts today : String) :
    (handle_yes_choice logs ∅ uid user_info first_name last_name ts
        today).sent_to = ∅ ∧
    (handle_yes_choice logs ∅ uid user_info first_name last_name ts
        today).local_log = [admin_message user_info first_name last_name uid] := by
  constructor <;> simp [handle_yes_choice, Finset.not_nonempty_empty]

/-! ### C9: the date listing of `/logs` -/

/-- C9: the date listing shared by `/logs` and the inline logs view is
sorted descending (most-recent-first for ISO dates), holds at most ten
entries, lists only dates present in the log collection, and is exactly
the first ten elements of the descending sort of all present dates. -/
theorem claim9_list_dates (logs : Logs) :
    List.Sorted (fun a b : String => a ≥ b) (listDates logs) ∧
    (listDates logs).length ≤ 10 ∧
    (∀ d, d ∈ listDates logs → d ∈ logs.map Prod.fst) ∧
    listDates logs =
      (List.insertionSort (fun a b : String => a ≥ b)
        (logs.map Prod.fst)).take 10 := by
  haveI : IsTotal String (fun a b : String => a ≥ b) := ⟨fun a b => le_total b a⟩
  haveI : IsTrans String (fun a b : String => a ≥ b) :=
    ⟨fun a b c h1 h2 => le_trans h2 h1⟩
  refine ⟨?_, ?_, ?_, rfl⟩
  · exact (List.sorted_insertionSort _ _).sublist (List.take_sublist 10 _)
  · exact List.length_take_le 10 _
  · intro d hd
    have h1 : d ∈ List.insertionSort (fun a b : String => a ≥ b)
        (logs.map Prod.fst) := List.take_subset 10 _ hd
    exact (List.perm_insertionSort _ _).mem_iff.mp h1

theorem claim9_witness : "2024-03-05" ∈ oneLog.map Prod.fst :=
  (claim9_list_dates oneLog).2.2.1 "2024-03-05" (by decide)

theorem claim5_witness :
    (handle_message demoRemoveState 7 "42").1.admin_users =
      demoRemoveState.admin_users ∧
    (handle_message demoRemoveState 7 "42").1.regular_users =
      demoRemoveState.regular_users ∧
    (handle_message demoRemoveState 7 "42").1.saves = demoRemoveState.saves ∧
    (handle_message demoRemoveState 7 "42").2 =
      ["❌ User " ++ toString 42 ++ " is not an admin."] :=
  claim5_remove_admin_noop demoRemoveState 7 42 "42" (by decide) (by decide)
    (by decide) (by decide) (by decide)

end Bot
